import Mathlib

/-!
Verification of the `egui-meteo` weather-dashboard core against its
natural-language specification.

The development shallowly embeds the Rust sources:
* `src/src/plot.rs` — the adaptive time-axis gridline generator `x_grid`,
  together with the timestamp/calendar arithmetic it uses
  (`src/src/lib.rs`: `date_to_chart` / `date_from_chart`);
* `src/src/app.rs` — the per-source download state machine
  (`DownloadingStatus`, `try_fetch_report`, `MeteoApp::update`,
  `MeteoApp::download_report`);
* `src/prepare-data/src/main.rs` — the batch fetch `handle_report`;
* `src/src/report.rs` and `src/src/dashboard.rs` — report merging and
  aggregation.

Machine integers are modelled as `Int`/`Nat`; chart coordinates (`f64` in the
source, holding exact integral unix timestamps) are modelled as `Int`;
fallible code returns `Option`/`Except`.
-/

namespace EguiMeteo

/-! ## Calendar arithmetic

The `time` crate works on the proleptic Gregorian calendar, with
`OffsetDateTime::from_unix_timestamp` accepting years -9999..=9999.
`daysFromCivil`/`civilFromDays` are the standard conversions between a
calendar date and a count of days since the unix epoch; all divisions are
Euclidean (`Int.ediv`), which coincides with floor division for the positive
divisors used here. -/

/-- Smallest unix timestamp `time::OffsetDateTime::from_unix_timestamp` accepts
(-9999-01-01T00:00:00Z), used by `date_from_chart` in `src/src/lib.rs`. -/
def minTimestamp : Int := -377705116800

/-- Largest accepted unix timestamp (9999-12-31T23:59:59Z). -/
def maxTimestamp : Int := 253402300799

/-- Proleptic Gregorian leap-year test. -/
def isLeapYear (y : Int) : Bool :=
  (y % 4 = 0 && y % 100 ≠ 0) || y % 400 = 0

/-- Number of days of month `m` (1-12) in year `y`. -/
def daysInMonth (y m : Int) : Int :=
  if m = 2 then (if isLeapYear y then 29 else 28)
  else if m = 4 ∨ m = 6 ∨ m = 9 ∨ m = 11 then 30
  else 31

/-- Days since the unix epoch of the civil date `y-m-d` (proleptic Gregorian). -/
def daysFromCivil (y m d : Int) : Int :=
  let y := if m ≤ 2 then y - 1 else y
  let era := y / 400
  let yoe := y - era * 400
  let doy := (153 * (m + (if m > 2 then -3 else 9)) + 2) / 5 + d - 1
  let doe := yoe * 365 + yoe / 4 - yoe / 100 + doy
  era * 146097 + doe - 719468

/-- Civil date `(y, m, d)` of a count of days since the unix epoch. -/
def civilFromDays (z : Int) : Int × Int × Int :=
  let z := z + 719468
  let era := z / 146097
  let doe := z - era * 146097
  let yoe := (doe - doe / 1460 + doe / 36524 - doe / 146096) / 365
  let y := yoe + era * 400
  let doy := doe - (365 * yoe + yoe / 4 - yoe / 100)
  let mp := (5 * doy + 2) / 153
  let d := doy - (153 * mp + 2) / 5 + 1
  let m := mp + (if mp < 10 then 3 else -9)
  (y + (if m ≤ 2 then 1 else 0), m, d)

/-- Unix timestamp of a civil instant. `OffsetDateTime::new_utc`,
`replace_month`, `replace_day`, `replace_hour`, `replace_minute` in the
source all reduce to this conversion. -/
def tsFromCivil (y m d h mi s : Int) : Int :=
  daysFromCivil y m d * 86400 + h * 3600 + mi * 60 + s

/-- Civil date of the day containing timestamp `t`. -/
def tsDate (t : Int) : Int × Int × Int :=
  civilFromDays (t / 86400)

/-- `OffsetDateTime::year()` of a timestamp. -/
def tsYear (t : Int) : Int := (tsDate t).1

/-- `OffsetDateTime::month() as u8` of a timestamp. -/
def tsMonth (t : Int) : Int := (tsDate t).2.1

/-- `OffsetDateTime::day()` of a timestamp. -/
def tsDay (t : Int) : Int := (tsDate t).2.2

/-- `OffsetDateTime::hour()` of a timestamp. -/
def tsHour (t : Int) : Int := (t % 86400) / 3600

/-! ## GridMarkGenerator (`x_grid` in `src/src/plot.rs`)

`date_to_chart` stores a unix timestamp verbatim in the chart coordinate and
`date_from_chart` truncates it back (`axis as i64`), so chart coordinates are
modelled directly as `Int` timestamps (`f64` holds these integral values
exactly).  `Duration::whole_days`/`whole_hours` truncate toward zero, which is
`Int.tdiv`. -/

/-- One axis grid mark: `egui_plot::GridMark` with the chart value and the
step size, both exact integral chart coordinates. -/
structure GridMark where
  value : Int
  stepSize : Int
deriving DecidableEq, Repr

/-- `duration.whole_days()`: seconds truncated to whole days. -/
def durDays (dur : Int) : Int := Int.tdiv dur 86400

/-- `duration.whole_hours()`: seconds truncated to whole hours. -/
def durHours (dur : Int) : Int := Int.tdiv dur 3600

/-- `date_to_chart(null_time + Duration::MINUTE)`. -/
def minuteStepSize : Int := 60

/-- `date_to_chart(null_time + Duration::HOUR)`. -/
def hourStepSize : Int := 3600

/-- `date_to_chart(null_time + Duration::DAY)`. -/
def dayStepSize : Int := 86400

/-- `date_to_chart(null_time + Duration::DAY * 30)`. -/
def monthStepSize : Int := 2592000

/-- `date_to_chart(null_time + Duration::days(365))`. -/
def yearStepSize : Int := 31536000

/-- Inclusive integer range `a..=b` as a list (empty when `b < a`). -/
def intRange (a b : Int) : List Int :=
  (List.range (b - a + 1).toNat).map (fun i : Nat => a + (i : Int))

/-- Body of the innermost loop `for minute in s..=e` of `x_grid`:
`date.replace_minute(minute)` on the hour-resolution `base` instant, emitted
when it falls in `start..end`. -/
def minuteLoopBody (s e base minute : Int) : List GridMark :=
  let date := base + minute * 60
  if s ≤ date ∧ date < e then [⟨date, minuteStepSize⟩] else []

/-- Body of `for hour in s..=e` of `x_grid` (lines 147-201 of plot.rs),
including the 6-hour and 3-hour marks, the hour mark with its
`continue`, and otherwise the minute sub-loop whose bounds reuse
`start.hour()`/`end.hour()` exactly as the source does. -/
def hourLoopBody (s e dur y m day hour : Int) : List GridMark :=
  let date := tsFromCivil y m day hour 0 0
  let l6 := if durHours dur > 25 ∧ (s ≤ date ∧ date < e) ∧ hour % 6 = 0 then
    [⟨date, hourStepSize * 6⟩] else []
  let l3 := if durHours dur > 15 ∧ (s ≤ date ∧ date < e) ∧ hour % 3 = 0 then
    [⟨date, hourStepSize * 3⟩] else []
  if durHours dur > 2 then
    l6 ++ l3 ++ (if s ≤ date ∧ date < e then [⟨date, hourStepSize⟩] else [])
  else
    let ms := if tsYear s = y ∧ tsMonth s = m ∧ tsDay s = day ∧ tsHour s = hour then
      tsHour s else 0
    let me := if tsYear e = y ∧ tsMonth e = m ∧ tsDay e = day ∧ tsHour e = hour then
      tsHour e else 59
    l6 ++ l3 ++ (intRange ms me).flatMap (minuteLoopBody s e date)

/-- Body of `for day in s..=e` of `x_grid` (lines 90-202 of plot.rs).
`date.replace_day(day)` fails (the source `continue`s) when the day does not
exist in the month; otherwise the 24/12/6/3-day marks, the day mark with its
`continue`, or the hour sub-loop. -/
def dayLoopBody (s e dur y m day : Int) : List GridMark :=
  if day < 1 ∨ daysInMonth y m < day then [] else
  let date := tsFromCivil y m day 0 0 0
  let l24 := if durDays dur > 90 ∧ (s ≤ date ∧ date < e) ∧ day % 24 = 0 then
    [⟨date, dayStepSize * 24⟩] else []
  let l12 := if durDays dur > 60 ∧ (s ≤ date ∧ date < e) ∧ day % 12 = 0 then
    [⟨date, dayStepSize * 12⟩] else []
  let l6 := if durDays dur > 30 ∧ (s ≤ date ∧ date < e) ∧ day % 6 = 0 then
    [⟨date, dayStepSize * 6⟩] else []
  let l3 := if durDays dur > 15 ∧ (s ≤ date ∧ date < e) ∧ day % 3 = 0 then
    [⟨date, dayStepSize * 3⟩] else []
  if durDays dur > 2 then
    l24 ++ l12 ++ l6 ++ l3 ++ (if s ≤ date ∧ date < e then [⟨date, dayStepSize⟩] else [])
  else
    let hs := if tsYear s = y ∧ tsMonth s = m ∧ tsDay s = day then tsHour s else 0
    let he := if tsYear e = y ∧ tsMonth e = m ∧ tsDay e = day then tsHour e else 23
    l24 ++ l12 ++ l6 ++ l3 ++ (intRange hs he).flatMap (hourLoopBody s e dur y m day)

/-- Body of `for month in s..=e` of `x_grid` (lines 68-203 of plot.rs):
month mark with `continue` when more than three months are visible, else the
day sub-loop bounded by the window's first/last day or `1..=31`. -/
def monthLoopBody (s e dur y m : Int) : List GridMark :=
  let date := tsFromCivil y m 1 0 0 0
  if durDays dur > 90 then
    if s ≤ date ∧ date < e then [⟨date, monthStepSize⟩] else []
  else
    let ds := if tsYear s = y ∧ tsMonth s = m then tsDay s else 1
    let de := if tsYear e = y ∧ tsMonth e = m then tsDay e else 31
    (intRange ds de).flatMap (dayLoopBody s e dur y m)

/-- Body of `for year in start.year()..=end.year()` of `x_grid`
(lines 31-204 of plot.rs): decade marks when more than twenty years are
visible, year marks when more than three years are visible, else the month
sub-loop bounded by the window's first/last month or January..=December. -/
def yearLoopBody (s e dur y : Int) : List GridMark :=
  let date := tsFromCivil y 1 1 0 0 0
  if durDays dur > 365 * 20 then
    if (s ≤ date ∧ date < e) ∧ y % 10 = 0 then [⟨date, yearStepSize * 10⟩] else []
  else if durDays dur > 365 * 3 then
    if s ≤ date ∧ date < e then [⟨date, yearStepSize⟩] else []
  else
    let ms := if tsYear s = y then tsMonth s else 1
    let me := if tsYear e = y then tsMonth e else 12
    (intRange ms me).flatMap (monthLoopBody s e dur y)

/-- `date_from_chart(start).unwrap_or(min_time)`: the lower chart bound,
clamped to `minTimestamp` when not representable. -/
def clampStart (t : Int) : Int :=
  if minTimestamp ≤ t ∧ t ≤ maxTimestamp then t else minTimestamp

/-- `date_from_chart(end).unwrap_or(max_time)`: the upper chart bound,
clamped to `maxTimestamp` when not representable. -/
def clampEnd (t : Int) : Int :=
  if minTimestamp ≤ t ∧ t ≤ maxTimestamp then t else maxTimestamp

/-- `x_grid` of `src/src/plot.rs`, for integral chart bounds `t0`, `t1`. -/
def xGrid (t0 t1 : Int) : List GridMark :=
  let s := clampStart t0
  let e := clampEnd t1
  let dur := e - s
  (intRange (tsYear s) (tsYear e)).flatMap (yearLoopBody s e dur)

/-! ## Payload decoding (`download_report` in `src/src/app.rs`,
`handle_report` in `src/prepare-data/src/main.rs`)

Raw payloads are byte lists; decoded text is a Lean `String` of the unicode
scalars produced by `encoding_rs::WINDOWS_1252.decode`. -/

/-- Unicode scalar value assigned to one byte by the WINDOWS-1252 decoder
(WHATWG mapping used by `encoding_rs`): bytes below 0x80 and from 0xA0 up map
to themselves, the 0x80-0x9F block maps through the code-page table, with the
five unassigned bytes passed through as C1 controls. -/
def windows1252Scalar (b : Nat) : Nat :=
  if b = 0x80 then 0x20AC
  else if b = 0x82 then 0x201A
  else if b = 0x83 then 0x0192
  else if b = 0x84 then 0x201E
  else if b = 0x85 then 0x2026
  else if b = 0x86 then 0x2020
  else if b = 0x87 then 0x2021
  else if b = 0x88 then 0x02C6
  else if b = 0x89 then 0x2030
  else if b = 0x8A then 0x0160
  else if b = 0x8B then 0x2039
  else if b = 0x8C then 0x0152
  else if b = 0x8E then 0x017D
  else if b = 0x91 then 0x2018
  else if b = 0x92 then 0x2019
  else if b = 0x93 then 0x201C
  else if b = 0x94 then 0x201D
  else if b = 0x95 then 0x2022
  else if b = 0x96 then 0x2013
  else if b = 0x97 then 0x2014
  else if b = 0x98 then 0x02DC
  else if b = 0x99 then 0x2122
  else if b = 0x9A then 0x0161
  else if b = 0x9B then 0x203A
  else if b = 0x9C then 0x0153
  else if b = 0x9E then 0x017E
  else if b = 0x9F then 0x0178
  else b

/-- `encoding_rs::WINDOWS_1252.decode(&body)`: every byte becomes exactly one
unicode scalar (the decoder never fails). -/
def windows1252Decode (bytes : List Nat) : String :=
  ⟨bytes.map (fun b => Char.ofNat (windows1252Scalar b))⟩

/-- `str::replace("\r\n", "\n")` on the character list: one left-to-right,
non-overlapping pass replacing each literal CR-LF pair with LF. -/
def normalizeCrlfChars : List Char → List Char
  | [] => []
  | '\r' :: '\n' :: rest => '\n' :: normalizeCrlfChars rest
  | c :: rest => c :: normalizeCrlfChars rest

/-- CRLF normalization on strings, as performed by
`body.replace("\r\n", "\n")` in `handle_report`. -/
def normalizeCrlf (s : String) : String :=
  ⟨normalizeCrlfChars s.data⟩

/-! ## Data model (`meteo` crate surface and `src/src/report.rs`) -/

/-- `meteo::ParseError`, abstracted to its display message. -/
structure ParseError where
  msg : String
deriving DecidableEq

/-- Metadata of a `meteo::Report`. `date : CalendarDate` is modelled as an
integer key with the calendar order (only ordering and equality of report
dates are used by the code under verification). -/
structure Metadata where
  date : Int
deriving DecidableEq

/-- One `meteo::DayRecord` (spec section 3): the measurement payload carried
by a day entry. The code under verification only moves day records around, so
the numeric measurement fields keep their source `f32`/`f64` type as `Float`
data and the timestamps are `Int`. -/
structure DayRecord where
  date : Int
  lowTemp : Float
  meanTemp : Float
  highTemp : Float
  lowTempDate : Int
  highTempDate : Int
  rain : Float
  avgWindSpeed : Float
  highWindSpeed : Float
  highWindSpeedDate : Option Int

/-- `meteo::Report`: metadata plus the ordered daily records. -/
structure MeteoReport where
  metadata : Metadata
  days : List DayRecord

/-- Modelled from the spec: `meteo::Report::merge` lives in the external
`meteo` crate, which is not under `src/`; per spec section 4.3 it
"concatenates `a.days` and `b.days`" and the result's "`metadata` is
inherited from `a`", performing no deduplication.  The source returns
`Result` and the caller unwraps; the spec describes no failure, so the
operation is modelled total. -/
def MeteoReport.merge (a b : MeteoReport) : MeteoReport :=
  { metadata := a.metadata, days := a.days ++ b.days }

/-- `report::Report` of `src/src/report.rs`: a parsed report together with
its optional original text. -/
structure Report where
  original : Option String
  report : MeteoReport

/-- `Report::merge` of `src/src/report.rs` lines 30-38: merge the inner
reports, drop the original text. -/
def Report.merge (a b : Report) : Report :=
  { original := none, report := a.report.merge b.report }

/-- `metadata.date` of the inner report, the sort/dedup key of the store. -/
def Report.date (r : Report) : Int :=
  r.report.metadata.date

/-! ## Download pipeline and state machine (`src/src/app.rs`) -/

/-- The `Error` enum of `src/src/app.rs` (transport, parse, io, internal,
other), with payloads abstracted to display text. -/
inductive AppError where
  | networkError (msg : String)
  | reportParsingError (e : ParseError)
  | ioError (msg : String)
  | internalError
  | other (msg : String)
deriving DecidableEq

/-- `MeteoApp::download_report` (app.rs lines 648-657), parametrized by the
transport outcome (`get(&url)`) and the external report parser
(`body.parse::<meteo::Report>()`): decode the bytes with WINDOWS-1252 and
hand the decoded text directly to the parser, pairing any parse failure with
the decoded text and a transport failure with no text. -/
def downloadReport (fetch : Except AppError (List Nat))
    (parse : String → Except ParseError MeteoReport) :
    Except (Option String × AppError) (String × MeteoReport) :=
  match fetch with
  | .error err => .error (none, err)
  | .ok bytes =>
    let body := windows1252Decode bytes
    match parse body with
    | .error err => .error (some body, .reportParsingError err)
    | .ok report => .ok (body, report)

/-- `handle_report` of `src/prepare-data/src/main.rs` lines 48-65 (with the
file-system bookkeeping outside the model): decode the bytes with
WINDOWS-1252, replace every CRLF with LF, parse; `.unwrap()` on the parse is
modelled as `none` (panic). -/
def handleReport (bytes : List Nat)
    (parse : String → Except ParseError MeteoReport) : Option MeteoReport :=
  let body := normalizeCrlf (windows1252Decode bytes)
  match parse body with
  | .error _ => none
  | .ok report => some report

/-- A normalized download pipeline following the claim's words ("decodes …
and normalizes every literal CRLF line-ending pair … before the text is
handed to the report parser"), for comparison with `downloadReport`. -/
def downloadReportClaimed (fetch : Except AppError (List Nat))
    (parse : String → Except ParseError MeteoReport) :
    Except (Option String × AppError) (String × MeteoReport) :=
  match fetch with
  | .error err => .error (none, err)
  | .ok bytes =>
    let body := normalizeCrlf (windows1252Decode bytes)
    match parse body with
    | .error err => .error (some body, .reportParsingError err)
    | .ok report => .ok (body, report)

/-- State of the one-shot `std::sync::mpsc` channel owned by an in-flight
download, as observed by one non-blocking `try_recv`: nothing yet, a ready
message, or producer dropped without sending. -/
inductive ChannelState where
  | empty
  | ready (msg : Except (Option String × AppError) (String × MeteoReport))
  | disconnected

/-- `DownloadingStatus` of `src/src/app.rs`. -/
inductive DownloadingStatus where
  | notDownloading
  | downloading (recv : ChannelState)
  | failed
  | downloaded

/-- `DownloadingStatus::not_downloading`. -/
def DownloadingStatus.isNotDownloading : DownloadingStatus → Bool
  | .notDownloading => true
  | _ => false

/-- `DownloadingStatus::downloading`. -/
def DownloadingStatus.isDownloading : DownloadingStatus → Bool
  | .downloading _ => true
  | _ => false

/-- `DownloadingStatus::try_fetch_report` (app.rs lines 461-485): the status
after the call paired with the surfaced `(original, report, error)` triple.
The source `std::mem::take(self)` replaces the status with the default
`NotDownloading` and the `Downloaded | Failed | NotDownloading` arms never
write it back, which the first arm mirrors. -/
def tryFetchReport (status : DownloadingStatus) :
    DownloadingStatus × Option String × Option MeteoReport × Option AppError :=
  match status with
  | .downloaded | .failed | .notDownloading => (.notDownloading, none, none, none)
  | .downloading recv =>
    match recv with
    | .ready (.ok (original, report)) => (.downloaded, some original, some report, none)
    | .ready (.error (original, error)) => (.failed, original, none, some error)
    | .empty => (.downloading .empty, none, none, none)
    | .disconnected => (.failed, none, none, some .internalError)

/-- One `SingleReport` entry of `MeteoApp` (app.rs lines 13-22, minus the
egui view state that the coordinator never touches). -/
structure SingleReport where
  name : String
  url : String
  selected : Bool
  status : DownloadingStatus
  original : Option String
  report : Option MeteoReport
  error : Option AppError

/-- One iteration of the `MeteoApp::update` loop (app.rs lines 614-646) for a
single source. `spawnChan` stands for the receiver of the channel created if
a fetch is spawned (fresh and empty at spawn time; its later contents are
produced by the spawned worker). -/
def updateStep (r : SingleReport) (spawnChan : ChannelState) : SingleReport :=
  if r.selected && r.status.isNotDownloading then
    { r with status := .downloading spawnChan }
  else if r.status.isDownloading then
    let res := tryFetchReport r.status
    let r1 := { r with status := res.1 }
    let r2 := match res.2.1 with
      | some original => { r1 with original := some original }
      | none => r1
    let r3 := match res.2.2.1 with
      | some report => { r2 with report := some report, error := none }
      | none => r2
    match res.2.2.2 with
    | some error => { r3 with error := some error }
    | none => r3
  else r

/-- Iterated `update` ticks; each tick observes the then-current channel
state of a spawned fetch. -/
def updateIter (r : SingleReport) : List ChannelState → SingleReport
  | [] => r
  | c :: cs => updateIter (updateStep r c) cs

/-! ## ReportStore refresh and Dashboard (`src/src/dashboard.rs`) -/

/-- Relation "comes no later in descending date order": the comparator
`|a, b| b.date.cmp(&a.date)` of the store's stable sort. -/
def dateDesc (a b : Report) : Prop :=
  b.date ≤ a.date

instance : DecidableRel dateDesc := fun a b => Int.decLe b.date a.date

instance : IsTotal Report dateDesc :=
  ⟨fun a b => (Int.le_total b.date a.date).elim Or.inl Or.inr⟩

instance : IsTrans Report dateDesc :=
  ⟨fun _ _ _ hab hbc => le_trans hbc hab⟩

/-- Remove adjacent entries with equal `metadata.date`, keeping the first of
each equal-key run (`Vec::dedup_by_key` semantics). -/
def dedupByDate : List Report → List Report
  | [] => []
  | [a] => [a]
  | a :: b :: rest =>
    if a.date = b.date then dedupByDate (a :: rest)
    else a :: dedupByDate (b :: rest)
termination_by l => l.length

/-- Modelled from the spec: the `ReportStore` construction/refresh is not
under `src/` (it lives in the binary crate's startup code); per spec
section 4.3 it sorts the reports "descending by `metadata.date`" with a
stable sort, "then remove[s] adjacent duplicates by equal `metadata.date`,
keeping the first". -/
def refreshReports (reports : List Report) : List Report :=
  dedupByDate (List.insertionSort dateDesc reports)

/-- `DisplayReport` of `src/src/report.rs` (view-mode selector). -/
inductive DisplayReport where
  | temperature
  | rain
  | wind
  | text
deriving DecidableEq

/-- `Dashboard` of `src/src/dashboard.rs`. -/
structure Dashboard where
  maxiReport : Report
  displaying : DisplayReport

/-- `Dashboard::new` (dashboard.rs lines 12-21): `reports.iter().next()
.unwrap()` panics on an empty slice (modelled as `none`); otherwise the
remaining reports are folded left-to-right onto the first with
`Report::merge`. -/
def Dashboard.new (reports : List Report) : Option Dashboard :=
  match reports with
  | [] => none
  | first :: rest =>
    some { maxiReport := rest.foldl (fun left right => left.merge right) first,
           displaying := .temperature }

/-! ## Concrete sample data used by witnesses -/

/-- Concrete empty parsed report used by the fetch-machine witnesses. -/
def sampleMeteoReport : MeteoReport := { metadata := { date := 0 }, days := [] }

/-- Concrete source entry used by the fetch-machine witnesses. -/
def sampleSource (status : DownloadingStatus) : SingleReport :=
  { name := "janvier", url := "http://station/report?1", selected := true,
    status := status, original := none, report := none, error := none }

/-- Concrete report (empty days) with the given report date, used by the
store/aggregation witnesses. -/
def sampleReport (d : Int) : Report :=
  { original := none, report := { metadata := { date := d }, days := [] } }

/-! ## Helper lemmas -/

theorem mem_intRange {y a b : Int} : y ∈ intRange a b ↔ a ≤ y ∧ y ≤ b := by
  simp only [intRange, List.mem_map, List.mem_range]
  constructor
  · rintro ⟨i, hi, rfl⟩
    omega
  · rintro ⟨h1, h2⟩
    exact ⟨(y - a).toNat, by omega, by omega⟩

theorem mem_emit {P : Prop} [Decidable P] {v st : Int} {mk : GridMark}
    (h : mk ∈ (if P then ([⟨v, st⟩] : List GridMark) else [])) :
    P ∧ mk.value = v ∧ mk.stepSize = st := by
  split at h
  · next hp => simp only [List.mem_singleton] at h; subst h; exact ⟨hp, rfl, rfl⟩
  · simp at h

theorem minuteLoopBody_mem {s e base minute : Int} {mk : GridMark}
    (h : mk ∈ minuteLoopBody s e base minute) : s ≤ mk.value ∧ mk.value < e := by
  unfold minuteLoopBody at h
  obtain ⟨hp, hv, -⟩ := mem_emit h
  omega

theorem hourLoopBody_mem {s e dur y m day hour : Int} {mk : GridMark}
    (h : mk ∈ hourLoopBody s e dur y m day hour) : s ≤ mk.value ∧ mk.value < e := by
  unfold hourLoopBody at h
  split at h <;> simp only [List.mem_append] at h
  · rcases h with (h | h) | h <;>
      · obtain ⟨hp, hv, -⟩ := mem_emit h; omega
  · rcases h with (h | h) | h
    · obtain ⟨hp, hv, -⟩ := mem_emit h; omega
    · obtain ⟨hp, hv, -⟩ := mem_emit h; omega
    · obtain ⟨_, -, hmem⟩ := List.mem_flatMap.1 h
      exact minuteLoopBody_mem hmem

theorem dayLoopBody_mem {s e dur y m day : Int} {mk : GridMark}
    (h : mk ∈ dayLoopBody s e dur y m day) : s ≤ mk.value ∧ mk.value < e := by
  unfold dayLoopBody at h
  split at h
  · simp at h
  split at h <;> simp only [List.mem_append] at h
  · rcases h with (((h | h) | h) | h) | h <;>
      · obtain ⟨hp, hv, -⟩ := mem_emit h; omega
  · rcases h with (((h | h) | h) | h) | h
    · obtain ⟨hp, hv, -⟩ := mem_emit h; omega
    · obtain ⟨hp, hv, -⟩ := mem_emit h; omega
    · obtain ⟨hp, hv, -⟩ := mem_emit h; omega
    · obtain ⟨hp, hv, -⟩ := mem_emit h; omega
    · obtain ⟨_, -, hmem⟩ := List.mem_flatMap.1 h
      exact hourLoopBody_mem hmem

theorem monthLoopBody_mem {s e dur y m : Int} {mk : GridMark}
    (h : mk ∈ monthLoopBody s e dur y m) : s ≤ mk.value ∧ mk.value < e := by
  unfold monthLoopBody at h
  split at h
  · obtain ⟨hp, hv, -⟩ := mem_emit h; omega
  · obtain ⟨_, -, hmem⟩ := List.mem_flatMap.1 h
    exact dayLoopBody_mem hmem

theorem yearLoopBody_mem {s e dur y : Int} {mk : GridMark}
    (h : mk ∈ yearLoopBody s e dur y) : s ≤ mk.value ∧ mk.value < e := by
  unfold yearLoopBody at h
  split at h
  · obtain ⟨hp, hv, -⟩ := mem_emit h
    obtain ⟨⟨h1, h2⟩, -⟩ := hp
    omega
  split at h
  · obtain ⟨hp, hv, -⟩ := mem_emit h; omega
  · obtain ⟨_, -, hmem⟩ := List.mem_flatMap.1 h
    exact monthLoopBody_mem hmem

theorem xGrid_mem {t0 t1 : Int} {mk : GridMark} (h : mk ∈ xGrid t0 t1) :
    clampStart t0 ≤ mk.value ∧ mk.value < clampEnd t1 := by
  unfold xGrid at h
  obtain ⟨_, -, hmem⟩ := List.mem_flatMap.1 h
  exact yearLoopBody_mem hmem

theorem clampStart_eq {t : Int} (h1 : minTimestamp ≤ t) (h2 : t ≤ maxTimestamp) :
    clampStart t = t := by
  unfold clampStart
  rw [if_pos ⟨h1, h2⟩]

theorem clampEnd_eq {t : Int} (h1 : minTimestamp ≤ t) (h2 : t ≤ maxTimestamp) :
    clampEnd t = t := by
  unfold clampEnd
  rw [if_pos ⟨h1, h2⟩]

theorem tdiv_eq_ediv_nonneg {a b : Int} (ha : 0 ≤ a) (hb : 0 ≤ b) :
    Int.tdiv a b = a / b := by
  obtain ⟨n, rfl⟩ := Int.eq_ofNat_of_zero_le ha
  obtain ⟨m, rfl⟩ := Int.eq_ofNat_of_zero_le hb
  rfl

theorem daysFromCivil_jan1 (y : Int) :
    daysFromCivil y 1 1 =
      365 * (y - 1) + (y - 1) / 4 - (y - 1) / 100 + (y - 1) / 400 - 719162 := by
  have h306 : (153 * ((1 : Int) + 9) + 2) / 5 = 306 := by decide
  unfold daysFromCivil
  norm_num [h306]
  omega

/-! ## C6 -/

/-- C6: for every visible range `[t0, t1)` with `t1 > t0`, every mark of
`x_grid` lies in the half-open window — as stated this fails for
non-representable bounds (see `c6_counterexample`); the amended property is:
every mark lies in `[clampStart t0, clampEnd t1)`, and in particular in
`[t0, t1)` whenever both bounds are representable timestamps. -/
theorem c6_marks_in_window :
    (∀ t0 t1 : Int, ∀ mk ∈ xGrid t0 t1,
        clampStart t0 ≤ mk.value ∧ mk.value < clampEnd t1) ∧
    (∀ t0 t1 : Int, minTimestamp ≤ t0 → t0 ≤ maxTimestamp →
        minTimestamp ≤ t1 → t1 ≤ maxTimestamp → t0 < t1 →
        ∀ mk ∈ xGrid t0 t1, t0 ≤ mk.value ∧ mk.value < t1) := by
  constructor
  · intro t0 t1 mk h
    exact xGrid_mem h
  · intro t0 t1 ha hb hc hd _ mk h
    have := xGrid_mem h
    rwa [clampStart_eq ha hb, clampEnd_eq hc hd] at this

/-- Witness for C6 at the concrete window `[0, 60)`, which produces the single
mark at the epoch minute. -/
theorem c6_witness : ((0 : Int) ≤ 0 ∧ (0 : Int) < 60) :=
  c6_marks_in_window.2 0 60 (by decide) (by decide) (by decide) (by decide) (by decide)
    ⟨0, 60⟩ (by decide)

/-- C6 as literally stated is false: for the window
`[253402300800, 253402300801)` (one second past the representable maximum,
with `t1 > t0`), both bounds are clamped and `x_grid` emits, among others, the
decade mark at year 0, far below `t0`. -/
theorem c6_counterexample :
    (253402300800 : Int) < 253402300801 ∧
    ¬ (∀ mk ∈ xGrid 253402300800 253402300801,
        (253402300800 : Int) ≤ mk.value ∧ mk.value < 253402300801) := by
  refine ⟨by norm_num, fun h => ?_⟩
  have hs : clampStart 253402300800 = minTimestamp := by decide
  have he : clampEnd 253402300801 = maxTimestamp := by decide
  have hmem : (⟨-62167219200, yearStepSize * 10⟩ : GridMark) ∈
      xGrid 253402300800 253402300801 := by
    simp only [xGrid, hs, he]
    refine List.mem_flatMap.2 ⟨0, ?_, ?_⟩
    · rw [mem_intRange]
      constructor <;> decide
    · decide
  have hb := h _ hmem
  simp only at hb
  omega

/-! ## C7 -/

theorem yearLoopBody_step {s e dur y : Int}
    (hlo : durDays dur > 365 * 3) (hhi : durDays dur ≤ 365 * 20) :
    ∀ mk ∈ yearLoopBody s e dur y, mk.stepSize = yearStepSize := by
  intro mk h
  unfold yearLoopBody at h
  rw [if_neg (by omega), if_pos (by omega)] at h
  obtain ⟨-, -, hst⟩ := mem_emit h
  exact hst

/-- C7: a visible range spanning exactly five calendar years (January 1 of
year `y` to January 1 of year `y + 5`, for any representable `y`) makes
`x_grid` take the year-marks-only branch: every emitted mark carries the year
step size, so in particular no day-, hour- or minute-level mark (of any
multiple) is produced. -/
theorem c7_five_year_window (y : Int) (h1 : -9999 ≤ y) (h2 : y ≤ 9994) :
    ∀ mk ∈ xGrid (tsFromCivil y 1 1 0 0 0) (tsFromCivil (y + 5) 1 1 0 0 0),
      mk.stepSize = yearStepSize ∧
      mk.stepSize ∉ ([dayStepSize * 24, dayStepSize * 12, dayStepSize * 6,
        dayStepSize * 3, dayStepSize, hourStepSize * 6, hourStepSize * 3,
        hourStepSize, minuteStepSize] : List Int) := by
  intro mk hmk
  have hval0 : minTimestamp ≤ tsFromCivil y 1 1 0 0 0 ∧
      tsFromCivil y 1 1 0 0 0 ≤ maxTimestamp := by
    rw [tsFromCivil, daysFromCivil_jan1]
    unfold minTimestamp maxTimestamp
    omega
  have hval1 : minTimestamp ≤ tsFromCivil (y + 5) 1 1 0 0 0 ∧
      tsFromCivil (y + 5) 1 1 0 0 0 ≤ maxTimestamp := by
    rw [tsFromCivil, daysFromCivil_jan1]
    unfold minTimestamp maxTimestamp
    omega
  have hd : 0 ≤ tsFromCivil (y + 5) 1 1 0 0 0 - tsFromCivil y 1 1 0 0 0 := by
    simp only [tsFromCivil, daysFromCivil_jan1]
    omega
  have hdur : 365 * 3 < durDays (tsFromCivil (y + 5) 1 1 0 0 0 - tsFromCivil y 1 1 0 0 0) ∧
      durDays (tsFromCivil (y + 5) 1 1 0 0 0 - tsFromCivil y 1 1 0 0 0) ≤ 365 * 20 := by
    rw [durDays, tdiv_eq_ediv_nonneg hd (by norm_num)]
    simp only [tsFromCivil, daysFromCivil_jan1]
    omega
  simp only [xGrid, clampStart_eq hval0.1 hval0.2, clampEnd_eq hval1.1 hval1.2] at hmk
  obtain ⟨yy, -, hmem⟩ := List.mem_flatMap.1 hmk
  have hstep := yearLoopBody_step hdur.1 hdur.2 mk hmem
  refine ⟨hstep, ?_⟩
  rw [hstep]
  decide

/-- Witness for C7 at the window 2000-01-01 .. 2005-01-01, whose grid holds
the year mark of 2000. -/
theorem c7_witness :
    ((-9999 : Int) ≤ 2000 ∧ (2000 : Int) ≤ 9994) ∧
    ((⟨946684800, 31536000⟩ : GridMark).stepSize = yearStepSize ∧
      (⟨946684800, 31536000⟩ : GridMark).stepSize ∉
        ([dayStepSize * 24, dayStepSize * 12, dayStepSize * 6,
          dayStepSize * 3, dayStepSize, hourStepSize * 6, hourStepSize * 3,
          hourStepSize, minuteStepSize] : List Int)) :=
  ⟨by decide, c7_five_year_window 2000 (by decide) (by decide) ⟨946684800, 31536000⟩
    (by decide)⟩

theorem updateStep_terminal {r : SingleReport} (c : ChannelState)
    (h : r.status = .downloaded ∨ r.status = .failed) : updateStep r c = r := by
  rcases h with h | h <;>
    simp [updateStep, h, DownloadingStatus.isNotDownloading, DownloadingStatus.isDownloading]

/-- C4: `Downloaded` and `Failed` are terminal — any sequence of further
`update` ticks (whatever the source's selection flag and whatever the channel
environment) leaves such a source entry entirely unchanged and spawns
nothing; and one tick makes a non-in-flight source in-flight (spawns a fetch)
exactly when the source is selected and its status is `NotDownloading`. -/
theorem c4_terminal_states :
    (∀ (r : SingleReport) (cs : List ChannelState),
        r.status = .downloaded ∨ r.status = .failed → updateIter r cs = r) ∧
    (∀ (r : SingleReport) (c : ChannelState),
        (r.status.isDownloading = false ∧ (updateStep r c).status.isDownloading = true) ↔
          (r.selected = true ∧ r.status = .notDownloading)) := by
  constructor
  · intro r cs h
    induction cs with
    | nil => rfl
    | cons c cs ih =>
      show updateIter (updateStep r c) cs = r
      rw [updateStep_terminal c h]
      exact ih
  · intro r c
    obtain ⟨name, url, selected, status, original, report, error⟩ := r
    cases status <;> cases selected <;>
      simp [updateStep, DownloadingStatus.isNotDownloading, DownloadingStatus.isDownloading,
        tryFetchReport]

/-- C3: polling a source whose in-flight channel producer was dropped without
sending transitions it to `Failed` in one `try_fetch_report` call, surfacing
`InternalError` as the retrievable error value (the poll is a total function
of the observed channel state, so it always returns). -/
theorem c3_disconnected_poll (r : SingleReport) (c : ChannelState)
    (h : r.status = .downloading .disconnected) :
    tryFetchReport r.status = (.failed, none, none, some .internalError) ∧
    (updateStep r c).status = .failed ∧
    (updateStep r c).error = some .internalError := by
  refine ⟨by rw [h]; rfl, ?_, ?_⟩ <;>
    simp [updateStep, h, tryFetchReport, DownloadingStatus.isNotDownloading,
      DownloadingStatus.isDownloading]

/-- C5: polling a source whose in-flight channel holds no message yet
surfaces no text, report or error, and the `update` tick leaves the whole
entry equal to itself — same `Downloading` status with the same retained
receiver, all other fields untouched. -/
theorem c5_empty_poll (r : SingleReport) (c : ChannelState)
    (h : r.status = .downloading .empty) :
    tryFetchReport r.status = (.downloading .empty, none, none, none) ∧
    updateStep r c = r := by
  refine ⟨by rw [h]; rfl, ?_⟩
  obtain ⟨name, url, selected, status, original, report, error⟩ := r
  simp only at h
  subst h
  simp [updateStep, tryFetchReport, DownloadingStatus.isNotDownloading,
    DownloadingStatus.isDownloading]

/-- C2: when the fetched body parses to an error, the poll transitions the
source to `Failed` with the parse error retrievable and the decoded original
text preserved in the entry; when the transport itself failed (no body), the
surfaced original-text component is `none` and the entry's stored text is
unchanged. -/
theorem c2_failure_surfacing :
    (∀ (r : SingleReport) (bytes : List Nat)
        (parse : String → Except ParseError MeteoReport) (pe : ParseError)
        (c : ChannelState),
        parse (windows1252Decode bytes) = .error pe →
        r.status = .downloading (.ready (downloadReport (.ok bytes) parse)) →
        (updateStep r c).status = .failed ∧
        (updateStep r c).error = some (.reportParsingError pe) ∧
        (updateStep r c).original = some (windows1252Decode bytes)) ∧
    (∀ (r : SingleReport) (err : AppError)
        (parse : String → Except ParseError MeteoReport) (c : ChannelState),
        r.status = .downloading (.ready (downloadReport (.error err) parse)) →
        (tryFetchReport r.status).2.1 = none ∧
        (updateStep r c).status = .failed ∧
        (updateStep r c).error = some err ∧
        (updateStep r c).original = r.original) := by
  constructor
  · intro r bytes parse pe c hp hs
    have hd : downloadReport (.ok bytes) parse =
        .error (some (windows1252Decode bytes), .reportParsingError pe) := by
      simp [downloadReport, hp]
    rw [hd] at hs
    refine ⟨?_, ?_, ?_⟩ <;>
      simp [updateStep, hs, tryFetchReport, DownloadingStatus.isNotDownloading,
        DownloadingStatus.isDownloading]
  · intro r err parse c hs
    have hd : downloadReport (.error err) parse = .error (none, err) := rfl
    rw [hd] at hs
    refine ⟨by rw [hs]; rfl, ?_, ?_, ?_⟩ <;>
      simp [updateStep, hs, tryFetchReport, DownloadingStatus.isNotDownloading,
        DownloadingStatus.isDownloading]


/-- Witness for C2: a parse failure on payload `A\r\nB` and a transport
failure, each polled once. -/
theorem c2_witness :
    ((updateStep (sampleSource (.downloading (.ready (downloadReport (.ok [65, 13, 10, 66])
          (fun _ => .error ⟨"parse failed"⟩))))) .empty).status = .failed ∧
      (updateStep (sampleSource (.downloading (.ready (downloadReport (.ok [65, 13, 10, 66])
          (fun _ => .error ⟨"parse failed"⟩))))) .empty).error =
        some (.reportParsingError ⟨"parse failed"⟩) ∧
      (updateStep (sampleSource (.downloading (.ready (downloadReport (.ok [65, 13, 10, 66])
          (fun _ => .error ⟨"parse failed"⟩))))) .empty).original =
        some (windows1252Decode [65, 13, 10, 66])) ∧
    ((tryFetchReport (sampleSource (.downloading (.ready (downloadReport
          (.error (.networkError "timeout")) (fun _ => .ok sampleMeteoReport))))).status).2.1 =
        none ∧
      (updateStep (sampleSource (.downloading (.ready (downloadReport
          (.error (.networkError "timeout")) (fun _ => .ok sampleMeteoReport))))) .empty).status =
        .failed ∧
      (updateStep (sampleSource (.downloading (.ready (downloadReport
          (.error (.networkError "timeout")) (fun _ => .ok sampleMeteoReport))))) .empty).error =
        some (.networkError "timeout") ∧
      (updateStep (sampleSource (.downloading (.ready (downloadReport
          (.error (.networkError "timeout")) (fun _ => .ok sampleMeteoReport))))) .empty).original =
        (sampleSource (.downloading (.ready (downloadReport (.error (.networkError "timeout"))
          (fun _ => .ok sampleMeteoReport))))).original) :=
  ⟨c2_failure_surfacing.1 _ [65, 13, 10, 66] (fun _ => .error ⟨"parse failed"⟩)
      ⟨"parse failed"⟩ .empty rfl rfl,
    c2_failure_surfacing.2 _ (.networkError "timeout") (fun _ => .ok sampleMeteoReport)
      .empty rfl⟩

/-- Witness for C3 on a concrete source entry with a dropped channel. -/
theorem c3_witness :
    tryFetchReport (sampleSource (.downloading .disconnected)).status =
      (.failed, none, none, some .internalError) ∧
    (updateStep (sampleSource (.downloading .disconnected)) .empty).status = .failed ∧
    (updateStep (sampleSource (.downloading .disconnected)) .empty).error =
      some .internalError :=
  c3_disconnected_poll (sampleSource (.downloading .disconnected)) .empty rfl

/-- Witness for C4: three update ticks on terminal sources change nothing. -/
theorem c4_witness :
    updateIter (sampleSource .downloaded) [.empty, .disconnected, .empty] =
      sampleSource .downloaded ∧
    updateIter (sampleSource .failed) [.empty, .disconnected, .empty] =
      sampleSource .failed :=
  ⟨c4_terminal_states.1 _ _ (Or.inl rfl), c4_terminal_states.1 _ _ (Or.inr rfl)⟩

/-- Witness for C5 on a concrete in-flight source with an empty channel. -/
theorem c5_witness :
    tryFetchReport (sampleSource (.downloading .empty)).status =
      (.downloading .empty, none, none, none) ∧
    updateStep (sampleSource (.downloading .empty)) .disconnected =
      sampleSource (.downloading .empty) :=
  c5_empty_poll (sampleSource (.downloading .empty)) .disconnected rfl


/-- C1 as stated is false: the in-app `download_report` hands the parser the
WINDOWS-1252-decoded text without CRLF normalization, observed on the payload
`[0x41, CR, LF, 0x42]` with a parser that echoes its input. -/
theorem c1_counterexample :
    ¬ (∀ (bytes : List Nat) (parse : String → Except ParseError MeteoReport),
        downloadReport (.ok bytes) parse = downloadReportClaimed (.ok bytes) parse) := by
  intro h
  have h2 := h [65, 13, 10, 66] (fun s => .error ⟨s⟩)
  simp only [downloadReport, downloadReportClaimed, Except.error.injEq, Prod.mk.injEq,
    Option.some.injEq] at h2
  exact absurd h2.1 (by decide)

/-- C1 amended: the batch `handle_report` of prepare-data decodes
WINDOWS-1252 and normalizes every literal CRLF to LF before parsing, exactly
as the claim describes; the in-app `download_report` decodes WINDOWS-1252 but
performs no CRLF normalization — the parser receives the decoded text
verbatim (shown for every payload through an echoing parser), so `A\r\nB`
reaches the parser with its CRLF intact. -/
theorem c1_decode_pipelines :
    (∀ (bytes : List Nat) (parse : String → Except ParseError MeteoReport),
        handleReport bytes parse =
          match parse (normalizeCrlf (windows1252Decode bytes)) with
          | .error _ => none
          | .ok report => some report) ∧
    (∀ bytes : List Nat,
        downloadReport (.ok bytes) (fun s => .error ⟨s⟩) =
          .error (some (windows1252Decode bytes),
            .reportParsingError ⟨windows1252Decode bytes⟩)) ∧
    windows1252Decode [65, 13, 10, 66] = "A\r\nB" ∧
    normalizeCrlf (windows1252Decode [65, 13, 10, 66]) = "A\nB" := by
  refine ⟨fun bytes parse => rfl, fun bytes => rfl, by decide, by decide⟩

/-- C8: for all reports `a`, `b`, `merge(a, b)` has exactly the days of `a`
followed by the days of `b` (hence summed length, original relative order and
no deduplication), metadata inherited from `a`, and an absent original
text. -/
theorem c8_merge_concat :
    ∀ a b : Report,
      (a.merge b).report.days = a.report.days ++ b.report.days ∧
      ((a.merge b).report.days).length = a.report.days.length + b.report.days.length ∧
      (a.merge b).report.metadata = a.report.metadata ∧
      (a.merge b).original = none := by
  intro a b
  refine ⟨rfl, ?_, rfl, rfl⟩
  simp [Report.merge, MeteoReport.merge]

theorem foldl_merge_days (first : Report) (rest : List Report) :
    (rest.foldl (fun left right => left.merge right) first).report.days =
      first.report.days ++ (rest.map (fun r2 => r2.report.days)).flatten := by
  induction rest generalizing first with
  | nil => simp
  | cons b l ih =>
    rw [List.foldl_cons, ih]
    simp [Report.merge, MeteoReport.merge, List.append_assoc]

/-- C10: `Dashboard::new` panics on the empty report collection (the unwrap
of the first element, modelled as `none`) and on any non-empty collection
returns the left-to-right fold of `merge` seeded by the first report, whose
aggregated day list is the concatenation of all the input day lists. -/
theorem c10_dashboard_new :
    Dashboard.new [] = none ∧
    ∀ (first : Report) (rest : List Report),
      Dashboard.new (first :: rest) =
        some { maxiReport := rest.foldl (fun left right => left.merge right) first,
               displaying := .temperature } ∧
      (rest.foldl (fun left right => left.merge right) first).report.days =
        first.report.days ++ (rest.map (fun r2 => r2.report.days)).flatten :=
  ⟨rfl, fun first rest => ⟨rfl, foldl_merge_days first rest⟩⟩


theorem dedupByDate_subset : ∀ (l : List Report), ∀ x ∈ dedupByDate l, x ∈ l := by
  intro l
  induction l using dedupByDate.induct with
  | case1 => simp [dedupByDate]
  | case2 a => simp [dedupByDate]
  | case3 a b rest heq ih =>
    intro x hx
    rw [dedupByDate, if_pos heq] at hx
    rcases List.mem_cons.1 (ih x hx) with h | h
    · simp [h]
    · simp [h]
  | case4 a b rest hne ih =>
    intro x hx
    rw [dedupByDate, if_neg hne] at hx
    rcases List.mem_cons.1 hx with h | h
    · simp [h]
    · have := ih x h
      simp [List.mem_cons.1 this]

theorem dedupByDate_date_mem :
    ∀ (l : List Report) (d : Int),
      d ∈ (dedupByDate l).map Report.date ↔ d ∈ l.map Report.date := by
  intro l
  induction l using dedupByDate.induct with
  | case1 => simp [dedupByDate]
  | case2 a => simp [dedupByDate]
  | case3 a b rest heq ih =>
    intro d
    rw [dedupByDate, if_pos heq]
    rw [ih d]
    simp only [List.map_cons, List.mem_cons]
    constructor
    · rintro (h | h)
      · exact .inl h
      · exact .inr (.inr h)
    · rintro (h | h | h)
      · exact .inl h
      · exact .inl (by rw [h, heq])
      · exact .inr h
  | case4 a b rest hne ih =>
    intro d
    rw [dedupByDate, if_neg hne]
    simp only [List.map_cons, List.mem_cons] at ih ⊢
    rw [ih d]

theorem dedupByDate_pairwise :
    ∀ l : List Report, l.Pairwise dateDesc →
      (dedupByDate l).Pairwise (fun a b => b.date < a.date) := by
  intro l
  induction l using dedupByDate.induct with
  | case1 => simp [dedupByDate]
  | case2 a => simp [dedupByDate]
  | case3 a b rest heq ih =>
    intro hp
    rw [dedupByDate, if_pos heq]
    refine ih ?_
    rw [List.pairwise_cons] at hp ⊢
    obtain ⟨ha, hb⟩ := hp
    rw [List.pairwise_cons] at hb
    exact ⟨fun x hx => ha x (by simp [hx]), hb.2⟩
  | case4 a b rest hne ih =>
    intro hp
    rw [dedupByDate, if_neg hne]
    rw [List.pairwise_cons] at hp
    obtain ⟨ha, hb⟩ := hp
    rw [List.pairwise_cons]
    refine ⟨?_, ih hb⟩
    intro x hx
    have hxmem := dedupByDate_subset _ x hx
    have hba : b.date < a.date :=
      lt_of_le_of_ne (ha b (by simp)) (fun h => hne h.symm)
    rcases List.mem_cons.1 hxmem with h | h
    · rw [h]; exact hba
    · have hxb : dateDesc b x := (List.pairwise_cons.1 hb).1 x h
      exact lt_of_le_of_lt hxb hba

theorem dedupByDate_eq_self :
    ∀ l : List Report, l.Pairwise (fun a b => a.date ≠ b.date) → dedupByDate l = l := by
  intro l
  induction l using dedupByDate.induct with
  | case1 => simp [dedupByDate]
  | case2 a => simp [dedupByDate]
  | case3 a b rest heq ih =>
    intro hp
    exact absurd heq ((List.pairwise_cons.1 hp).1 b (by simp))
  | case4 a b rest hne ih =>
    intro hp
    rw [dedupByDate, if_neg hne, ih (List.pairwise_cons.1 hp).2]


/-- C9: the store refresh (stable descending sort by `metadata.date`, then
adjacent dedup keeping the first of each run) maps pairwise-disjoint-date
inputs to a permutation of themselves sorted strictly descending by date
(one entry per distinct date); and for any input, each date that occurs
(including duplicated ones) survives in exactly one entry. -/
theorem c9_refresh_sort_dedup :
    (∀ l : List Report, l.Pairwise (fun a b => a.date ≠ b.date) →
        List.Perm (refreshReports l) l ∧
        (refreshReports l).Pairwise (fun a b => b.date < a.date)) ∧
    (∀ (l : List Report) (d : Int), d ∈ l.map Report.date →
        ((refreshReports l).map Report.date).count d = 1) := by
  have hstrict : ∀ l : List Report,
      (refreshReports l).Pairwise (fun a b => b.date < a.date) := fun l =>
    dedupByDate_pairwise _ (List.sorted_insertionSort dateDesc l)
  constructor
  · intro l hp
    have hperm : List.Perm (List.insertionSort dateDesc l) l := List.perm_insertionSort dateDesc l
    have hps : (List.insertionSort dateDesc l).Pairwise (fun a b => a.date ≠ b.date) :=
      (hperm.pairwise_iff fun h => h.symm).2 hp
    have heq : refreshReports l = List.insertionSort dateDesc l :=
      dedupByDate_eq_self _ hps
    exact ⟨heq ▸ hperm, hstrict l⟩
  · intro l d hd
    have hnd : ((refreshReports l).map Report.date).Nodup := by
      have hmapped : ((refreshReports l).map Report.date).Pairwise (fun x y => y < x) :=
        (hstrict l).map Report.date (fun a b h => h)
      exact hmapped.imp (fun h => ne_of_gt h)
    have hmem : d ∈ (refreshReports l).map Report.date := by
      rw [refreshReports, dedupByDate_date_mem]
      have : List.Perm ((List.insertionSort dateDesc l).map Report.date) (l.map Report.date) :=
        (List.perm_insertionSort dateDesc l).map Report.date
      exact this.mem_iff.2 hd
    exact List.count_eq_one_of_mem hnd hmem

/-- Witness for C9: a two-element disjoint store and a duplicated-date
store. -/
theorem c9_witness :
    (List.Perm (refreshReports [sampleReport 2, sampleReport 1]) [sampleReport 2, sampleReport 1] ∧
      (refreshReports [sampleReport 2, sampleReport 1]).Pairwise
        (fun a b => b.date < a.date)) ∧
    ((refreshReports [sampleReport 5, sampleReport 5]).map Report.date).count 5 = 1 :=
  ⟨c9_refresh_sort_dedup.1 [sampleReport 2, sampleReport 1]
      (by simp [sampleReport, Report.date]),
    c9_refresh_sort_dedup.2 [sampleReport 5, sampleReport 5] 5
      (by simp [sampleReport, Report.date])⟩

end EguiMeteo
